import Mathlib

/-!
Verification development for the `umd-auth` repository (`umdauth.py`).

Python strings are modelled as `List Char`; the network, the HTML scraper and
the headless browser are modelled as an explicit oracle (`Env`) supplying the
data each request of `UMDAuth.authenticate` extracts; the mutable object state
(`self.codes`, `self.auth_cookies`, `self.identity_jsession_id`) together with
the contents of `codes.txt` form the state record `AuthState`.  Fallible
Python operations (indexing, dict lookup, attribute access on `None`,
assertions) are modelled with `Option`/`Except`.
-/

namespace UmdAuth

/-- Python strings, modelled as their character sequences. -/
abbrev Str := List Char

/-! ## Python string primitives used by `umdauth.py` -/

/-- The characters Python's `str.isspace` / `str.strip` treat as whitespace
(ASCII fragment; the codes handled by the program are ASCII tokens). -/
def isSpaceChar (c : Char) : Bool :=
  c = ' ' || c = '\t' || c = '\n' || c = '\r' || c = '\x0b' || c = '\x0c'

/-- Python `str.isspace`: non-empty and all characters whitespace. -/
def pyIsSpace (s : Str) : Bool :=
  !s.isEmpty && s.all isSpaceChar

/-- Python `str.strip`: drop leading and trailing whitespace. -/
def pyStrip (s : Str) : Str :=
  ((s.dropWhile isSpaceChar).reverse.dropWhile isSpaceChar).reverse

/-- Helper for `pyReadlines`: split keeping each `'\n'` terminator
(`acc` holds the current line reversed). -/
def readlinesAux : Str → Str → List Str
  | [], acc => if acc.isEmpty then [] else [acc.reverse]
  | c :: rest, acc =>
    if c = '\n' then (acc.reverse ++ ['\n']) :: readlinesAux rest []
    else readlinesAux rest (c :: acc)

/-- Python `f.readlines()` on the file contents: the lines, each keeping its
terminating newline (the last line may lack one); empty file gives `[]`. -/
def pyReadlines (content : Str) : List Str :=
  readlinesAux content []

/-- Python `sep.join(xs)`. -/
def pyJoin (sep : Str) : List Str → Str
  | [] => []
  | [x] => x
  | x :: y :: xs => x ++ sep ++ pyJoin sep (y :: xs)

/-- Python `s.split(sep)` for a one-character separator: splits on every
occurrence; the result is always non-empty. -/
def pySplitChar (sep : Char) : Str → List Str
  | [] => [[]]
  | c :: rest =>
    match pySplitChar sep rest with
    | [] => []
    | r :: rs => if c = sep then [] :: r :: rs else (c :: r) :: rs

/-- Fuelled worker for `pySplitSub` (the fuel only bounds recursion; it is
always at least the string length at the top-level call, which suffices for a
non-empty separator). -/
def splitSubFuel (sep : Str) : Nat → Str → Str → List Str
  | _, [], acc => [acc.reverse]
  | 0, s, acc => [acc.reverse ++ s]
  | fuel + 1, c :: cs, acc =>
    if sep.isPrefixOf (c :: cs) then
      acc.reverse :: splitSubFuel sep fuel ((c :: cs).drop sep.length) []
    else
      splitSubFuel sep fuel cs (c :: acc)

/-- Python `s.split(sep)` for a (non-empty) substring separator: splits on
every occurrence. -/
def pySplitSub (sep s : Str) : List Str :=
  splitSubFuel sep s.length s []

/-- Python `sub in s` substring containment. -/
def hasSubstr (pat : Str) : Str → Bool
  | [] => pat.isEmpty
  | c :: rest => pat.isPrefixOf (c :: rest) || hasSubstr pat rest

/-- Value of a hexadecimal digit character, if it is one (working on the
code point: 48-57 are the digits, 97-102 and 65-70 the two letter ranges). -/
def hexVal (c : Char) : Option Nat :=
  if 48 ≤ c.toNat && c.toNat ≤ 57 then some (c.toNat - 48)
  else if 97 ≤ c.toNat && c.toNat ≤ 102 then some (c.toNat - 87)
  else if 65 ≤ c.toNat && c.toNat ≤ 70 then some (c.toNat - 55)
  else none

/-- Python `urllib.parse.unquote`, modelled at byte granularity (faithful for
the ASCII data the program handles): each valid `%XX` escape becomes the byte
`XX`; invalid escapes are left untouched. -/
def pyUnquote : Str → Str
  | [] => []
  | '%' :: h1 :: h2 :: rest =>
    match hexVal h1, hexVal h2 with
    | some a, some b => Char.ofNat (16 * a + b) :: pyUnquote rest
    | _, _ => '%' :: pyUnquote (h1 :: h2 :: rest)
  | c :: rest => c :: pyUnquote rest

/-- UTF-8 encoding of one character, as byte values. -/
def utf8Encode (c : Char) : List Nat :=
  if c.toNat < 128 then [c.toNat]
  else if c.toNat < 2048 then [192 + c.toNat / 64, 128 + c.toNat % 64]
  else if c.toNat < 65536 then
    [224 + c.toNat / 4096, 128 + (c.toNat / 64) % 64, 128 + c.toNat % 64]
  else
    [240 + c.toNat / 262144, 128 + (c.toNat / 4096) % 64,
     128 + (c.toNat / 64) % 64, 128 + c.toNat % 64]

/-- The bytes `urllib.parse.quote` never escapes (`ALWAYS_SAFE`): ASCII
letters, digits, and `_ . - ~`.  `quote` is called with `safe=""`, so nothing
else is exempt. -/
def alwaysSafeByte (b : Nat) : Bool :=
  (65 ≤ b && b ≤ 90) || (97 ≤ b && b ≤ 122) || (48 ≤ b && b ≤ 57) ||
    b = 95 || b = 46 || b = 45 || b = 126

/-- Upper-case hexadecimal digit (code point 48 + n for digits, 55 + n for
the letters). -/
def hexUpper (n : Nat) : Char :=
  if n < 10 then Char.ofNat (48 + n) else Char.ofNat (55 + n)

/-- How `urllib.parse.quote(·, safe="")` renders one byte. -/
def quoteByte (b : Nat) : Str :=
  if alwaysSafeByte b then [Char.ofNat b] else ['%', hexUpper (b / 16), hexUpper (b % 16)]

/-- Python `urllib.parse.quote(s, safe="")` (line 171 of `umdauth.py`):
UTF-8 encode, then percent-escape every byte outside `ALWAYS_SAFE`. -/
def pyQuote (s : Str) : Str :=
  (s.flatMap utf8Encode).flatMap quoteByte

/-- Python dict lookup `d[k]` as used for `cookies` / `headers` mappings:
`none` models the `KeyError` case. -/
def pyDictGet (d : List (Str × Str)) (k : Str) : Option Str :=
  (d.find? (fun kv => kv.1 == k)).map (fun kv => kv.2)

/-- How a Python f-string renders an optional value (`None` prints as
`"None"`, it does not raise). -/
def optStr : Option Str → Str
  | none => ('N' :: 'o' :: 'n' :: 'e' :: [])
  | some s => s

/-! ## Data model

`Hop` is one entry of a `requests` response's redirect `history`; `Env` is the
oracle for everything the outside world (network, HTML soup, headless browser,
scraped code divs) returns during one run. -/

/-- One hop of a redirect history: its cookie jar and its response headers. -/
structure Hop where
  cookies : List (Str × Str)
  headers : List (Str × Str)
deriving DecidableEq, Repr

/-- The `duo_iframe` element found in the login page: its `data-host` and
`data-sig-request` attributes (`none` models a missing attribute, on which
`.split` would raise `AttributeError`). -/
structure DuoIframe where
  dataHost : Option Str
  dataSigRequest : Option Str
deriving DecidableEq, Repr

/-- Oracle for one run: what each external interaction of
`UMDAuth.authenticate` / `generate_new_codes` observes. -/
structure Env where
  /-- Redirect history of the step-1 `GET https://identity.umd.edu/mfaprofile`. -/
  mfaHistory : List Hop
  /-- Body text of the step-2 credential-submission response. -/
  loginText : Str
  /-- Value `r.url` of the step-2 response (the continuation URL `umd_shib_url`). -/
  loginUrl : Str
  /-- The `duo_iframe` element, if `soup.find` locates it. -/
  duoIframe : Option DuoIframe
  /-- Final URL the headless browser reports after navigating to a URL. -/
  driverFinalUrl : Str → Str
  /-- Field `response.txid` of the passcode-prompt response (`none`: missing). -/
  promptTxid : Option Str
  /-- Field `response.cookie` of the transaction-status response (`none`: missing). -/
  statusCookie : Option Str
  /-- Redirect history of the step-7 completion `POST` to `umd_shib_url`. -/
  finalHistory : List Hop
  /-- Redirect history of the extra pending-survey proceed `GET`. -/
  surveyHistory : List Hop
  /-- Texts of the code divs inside `printWindow` on the mfaprofile page,
  if `soup.find(id="printWindow")` locates the element. -/
  printWindow : Option (List Str)

/-- The mutable state of a `UMDAuth` object plus the `codes.txt` file. -/
structure AuthState where
  username : Str
  password : Str
  auth_cookies : Option (List (Str × Str))
  identity_jsession_id : Option Str
  codes : List Str
  /-- Contents of the `codes.txt` backing file. -/
  codesFile : Str
deriving DecidableEq, Repr

/-- External requests issued during a run, with the data relevant to the
claims (the submitted passcode, the combined signature, visited URLs). -/
inductive NetStep where
  | getMfaprofile
  | postLogin (username password : Str)
  | browserGet (url : Str)
  | postPrompt (sid passcode : Str)
  | postStatus (sid txid : Str)
  | postStatusTx (sid txid : Str)
  | postShib (url sigResponse : Str)
  | getSurveyProceed (url : Str)
  | postMfaGenerate
deriving DecidableEq, Repr

/-- The exceptions the Python code can raise, by rôle.
`exhaustedCredentials` is the `ValueError` of line 117 (the spec's
`ExhaustedCredentialsError`); `authenticationRejected` is the failed marker
assertion of lines 143-145 (the spec's `AuthenticationRejectedError`);
`emptyHistory` is the failed assertion of line 219. -/
inductive AuthError where
  | exhaustedCredentials
  | indexError
  | keyError
  | authenticationRejected
  | attributeError
  | emptyHistory
deriving DecidableEq, Repr

/-- Result of a run of `authenticate`: outcome, final object/file state, and
the requests performed, in order. -/
structure AuthResult where
  outcome : Except AuthError Unit
  state : AuthState
  trace : List NetStep

/-- Result of `generate_new_codes`. -/
structure GenResult where
  outcome : Except AuthError (List Str)
  state : AuthState
  trace : List NetStep

/-- One cookie of a `requests.Session` jar. -/
structure Cookie where
  name : Str
  value : Option Str
  domain : Str
  path : Str
deriving DecidableEq, Repr

/-- Result of `_new_session`: the session's cookie jar (on success), the
state, and the requests performed. -/
structure SessionResult where
  outcome : Except AuthError (List Cookie)
  state : AuthState
  trace : List NetStep

/-! ## String constants of the source -/

/-- The second-factor marker asserted at lines 143-145. -/
def marker : Str :=
  ("Please complete your multi-factor authentication using Duo.").toList

/-- Cookie/header name constants. -/
def kJSESSIONID : Str := ("JSESSIONID").toList

def kShibIdpSession : Str := ("shib_idp_session").toList

def kSetCookie : Str := ("set-cookie").toList

def kJSESSION : Str := ("JSESSION").toList

def kIdentityDomain : Str := ("identity.umd.edu").toList

def kShibMarker : Str := ("shib_idp_session=").toList

def kJsidMarker : Str := ("JSESSIONID=").toList

def kSidMarker : Str := ("sid=").toList

def kProceedSuffix : Str := ("3&_eventId_proceed=1").toList

/-! ## The operations of `UMDAuth` -/

/-- Model of `UMDAuth._write_codes` (lines 335-340): rewrite `codes.txt` in full with
the current codes joined by newlines. -/
def write_codes (s : AuthState) : AuthState :=
  { s with codesFile := pyJoin ['\n'] s.codes }

/-- The startup read of `codes.txt` (lines 42-49 of `__init__`): read the
lines, skip whitespace-only lines, strip each kept line. -/
def readCodes (content : Str) : List Str :=
  (pyReadlines content).filterMap
    (fun line => if pyIsSpace line then none else some (pyStrip line))

/-- Lines 289-292 of `generate_new_codes`: overwrite `self.codes` with the
freshly scraped codes and rewrite the file — the store's `replenish`
operation. -/
def replenish (s : AuthState) (cs : List Str) : AuthState :=
  write_codes { s with codes := cs }

/-- The body of `generate_new_codes` after `_new_session` returned (lines
274-294): POST the generate-codes form, scrape the `printWindow` div texts
(`none` models `soup.find` returning `None`, making `find_all` raise
`AttributeError`), then overwrite codes and file. -/
def generateBody (s : AuthState) (env : Env) : GenResult :=
  match env.printWindow with
  | none => ⟨.error .attributeError, s, [.postMfaGenerate]⟩
  | some divs => ⟨.ok divs, replenish s divs, [.postMfaGenerate]⟩

/-- Cookie-value extraction pattern of lines 222-224 / 229-231 / 235-237 /
246-248: `header.split(marker)[1].split(";")[0]` (`none` models the
`IndexError` when the marker is absent from the header). -/
def extractAfter (mk hdr : Str) : Option Str :=
  ((pySplitSub mk hdr).get? 1).map (fun t => (pySplitChar ';' t).headD [])

/-- Tail of `authenticate` (lines 252-268): store the two auth cookies and
the identity JSESSIONID, rewrite the codes file, and — when we were down to
the last code — run `generate_new_codes`.  At this point `auth_cookies` was
just assigned a two-entry dict, so the `if not self.auth_cookies` re-
authentication check inside that call's `_new_session` is vacuous and the
call reduces to `generateBody`. -/
def finishAuth (s : AuthState) (env : Env) (jsessionId shibIdpSession identityJsid : Str)
    (generateAfter : Bool) (tr : List NetStep) : AuthResult :=
  let s1 : AuthState :=
    { s with identity_jsession_id := some identityJsid,
             auth_cookies := some [(kJSESSIONID, jsessionId), (kShibIdpSession, shibIdpSession)] }
  let s2 := write_codes s1
  if generateAfter then
    let g := generateBody s2 env
    match g.outcome with
    | .error e => ⟨.error e, g.state, tr ++ g.trace⟩
    | .ok _ => ⟨.ok (), g.state, tr ++ g.trace⟩
  else ⟨.ok (), s2, tr⟩

/-- Steps 1-8 of `UMDAuth.authenticate` (lines 129-268), after the passcode
`code` has been popped from the head of the list (line 126).  Every `match`
arm returning an error models the Python exception raised at that point; the
state is whatever the object held at that moment. -/
def authSteps (s : AuthState) (env : Env) (code : Str) (generateAfter : Bool) : AuthResult :=
  -- step 1: r = requests.get("https://identity.umd.edu/mfaprofile") (l.132)
  match env.mfaHistory.get? 2 with
  | none => ⟨.error .indexError, s, [.getMfaprofile]⟩
  | some hop2 =>
  match pyDictGet hop2.cookies kJSESSIONID with
  | none => ⟨.error .keyError, s, [.getMfaprofile]⟩
  | some jsessionId =>
  -- step 2: POST credentials (l.141-142), marker assertion (l.143-145)
  if hasSubstr marker env.loginText then
    let umdShibUrl := env.loginUrl
    -- step 3: locate the duo iframe and split its signature (l.159-165)
    match env.duoIframe with
    | none => ⟨.error .attributeError, s, [.getMfaprofile, .postLogin s.username s.password]⟩
    | some iframe =>
    match iframe.dataSigRequest with
    | none => ⟨.error .attributeError, s, [.getMfaprofile, .postLogin s.username s.password]⟩
    | some sigRequest =>
    let parts := pySplitChar ':' sigRequest
    let duoSig := parts.headD []
    match parts.get? 1 with
    | none => ⟨.error .indexError, s, [.getMfaprofile, .postLogin s.username s.password]⟩
    | some appSig =>
    -- step 4: build the iframe URL with full component-encoding (l.167-184)
    let currentUrlEncoded := pyQuote umdShibUrl
    let duoIframeSourceUrl :=
      ("https://").toList ++ optStr iframe.dataHost ++ ("/frame/web/v1/auth?tx=").toList ++
        duoSig ++ ("&parent=").toList ++ currentUrlEncoded ++ ("&v=2.6").toList
    let tr3 := [.getMfaprofile, .postLogin s.username s.password, .browserGet duoIframeSourceUrl]
    match (pySplitSub kSidMarker (env.driverFinalUrl duoIframeSourceUrl)).get? 1 with
    | none => ⟨.error .indexError, s, tr3⟩
    | some sidRaw =>
    let sid := pyUnquote sidRaw
    -- step 5: submit the passcode (l.186-196)
    let tr4 := tr3 ++ [.postPrompt sid code]
    match env.promptTxid with
    | none => ⟨.error .keyError, s, tr4⟩
    | some txid =>
    -- step 6: the two status polls (l.198-203)
    let tr5 := tr4 ++ [.postStatus sid txid, .postStatusTx sid txid]
    match env.statusCookie with
    | none => ⟨.error .keyError, s, tr5⟩
    | some authSig =>
    -- step 7: complete the assertion (l.205-211)
    let sigResponse := authSig ++ ':' :: appSig
    let tr6 := tr5 ++ [.postShib umdShibUrl sigResponse]
    -- step 8: harvest cookies from the redirect history (l.219-258)
    match env.finalHistory with
    | [] => ⟨.error .emptyHistory, s, tr6⟩
    | hop0 :: hrest =>
    match pyDictGet hop0.headers kSetCookie with
    | none => ⟨.error .keyError, s, tr6⟩
    | some hdr0 =>
    match extractAfter kShibMarker hdr0 with
    | none => ⟨.error .indexError, s, tr6⟩
    | some shibIdpSession =>
    if hrest.isEmpty then
      -- pending-survey branch (len(r.history) == 1, l.221-233)
      let umdShibUrl' := umdShibUrl.dropLast ++ kProceedSuffix
      let tr7 := tr6 ++ [.getSurveyProceed umdShibUrl']
      match env.surveyHistory.get? 1 with
      | none => ⟨.error .indexError, s, tr7⟩
      | some shop1 =>
      match pyDictGet shop1.headers kSetCookie with
      | none => ⟨.error .keyError, s, tr7⟩
      | some hdr1 =>
      match extractAfter kJsidMarker hdr1 with
      | none => ⟨.error .indexError, s, tr7⟩
      | some identityJsid =>
      finishAuth s env jsessionId shibIdpSession identityJsid generateAfter tr7
    else
      -- normal branch (len(r.history) >= 2, l.234-249)
      match (hop0 :: hrest).get? 1 with
      | none => ⟨.error .indexError, s, tr6⟩
      | some hop1 =>
      match pyDictGet hop1.headers kSetCookie with
      | none => ⟨.error .keyError, s, tr6⟩
      | some hdr1 =>
      match extractAfter kJsidMarker hdr1 with
      | none => ⟨.error .indexError, s, tr6⟩
      | some identityJsid =>
      finishAuth s env jsessionId shibIdpSession identityJsid generateAfter tr6
  else
    ⟨.error .authenticationRejected, s, [.getMfaprofile, .postLogin s.username s.password]⟩

/-- Model of `UMDAuth.authenticate` (lines 71-268): fail with the spec's
`ExhaustedCredentialsError` when no codes are left (lines 116-117, a
`ValueError` in the source), otherwise pop the head code (line 126) and run
the negotiation; `generate_codes_after` is set when that was the last code
(lines 118-123). -/
def authenticate (s0 : AuthState) (env : Env) : AuthResult :=
  match s0.codes with
  | [] => ⟨.error .exhaustedCredentials, s0, []⟩
  | code :: restCodes =>
    authSteps { s0 with codes := restCodes } env code restCodes.isEmpty

/-- Python truthiness of the `auth_cookies` attribute: `None` and the empty
dict are both falsy (`if not self.auth_cookies`, line 63). -/
def pyFalsy : Option (List (Str × Str)) → Bool
  | none => true
  | some [] => true
  | some (_ :: _) => false

/-- The cookie jar `_new_session` builds (lines 65-68):
`add_dict_to_cookiejar` adds every stored cookie with default scope
(domain `""`, path `"/"`), then `JSESSION` is pinned to `identity.umd.edu`.
(The `none` case defaults to no dict entries; all call sites pass a dict.) -/
def mkJar (d : Option (List (Str × Str))) (idj : Option Str) : List Cookie :=
  (d.getD []).map (fun kv => ⟨kv.1, some kv.2, [], ['/']⟩) ++
    [⟨kJSESSION, idj, kIdentityDomain, ['/']⟩]

/-- Model of `UMDAuth._new_session` (lines 54-69): negotiate first when no (or an
empty) cookie set is cached, then build the session jar. -/
def new_session (s : AuthState) (env : Env) : SessionResult :=
  if pyFalsy s.auth_cookies then
    let r := authenticate s env
    match r.outcome with
    | .error e => ⟨.error e, r.state, r.trace⟩
    | .ok () => ⟨.ok (mkJar r.state.auth_cookies r.state.identity_jsession_id), r.state, r.trace⟩
  else ⟨.ok (mkJar s.auth_cookies s.identity_jsession_id), s, []⟩

/-- Model of `UMDAuth.generate_new_codes` (lines 270-294): `_new_session` (which may
trigger a full negotiation), then scrape and store the fresh codes. -/
def generate_new_codes (s : AuthState) (env : Env) : GenResult :=
  if pyFalsy s.auth_cookies then
    let r := authenticate s env
    match r.outcome with
    | .error e => ⟨.error e, r.state, r.trace⟩
    | .ok () =>
      let g := generateBody r.state env
      ⟨g.outcome, g.state, r.trace ++ g.trace⟩
  else generateBody s env

/-! ## DiningDollars (lines 343-350)

Python `float` amounts are modelled as rationals; the instance values of the
spec (`12.50`, `3.00`, `15.50`) are exactly representable binary fractions
whose IEEE-754 sum is exact, so the models agree on them. -/

/-- The `DiningDollars` dataclass. -/
structure DiningDollars where
  current_amount : ℚ
  rollover_amount : ℚ
  total_amount : ℚ
deriving DecidableEq, Repr

/-- The dataclass constructor: `total_amount` is `field(init=False)` and is
assigned `current + rollover` by `__post_init__`; callers supply only the
two summands. -/
def mkDiningDollars (current rollover : ℚ) : DiningDollars :=
  ⟨current, rollover, current + rollover⟩

/-! ## A concrete environment on which every step succeeds -/

/-- A concrete oracle on which the whole negotiation succeeds: used to
instantiate the theorems at explicit inputs. -/
def envOk : Env where
  mfaHistory := [⟨[], []⟩, ⟨[], []⟩, ⟨[(kJSESSIONID, ('J' :: '0' :: []))], []⟩]
  loginText := marker
  loginUrl := ("https://shib.idm.umd.edu/idp/cas/login?execution=e1s1").toList
  duoIframe := some ⟨some (("api-duo.host").toList), some (("DUOSIG:APPSIG").toList)⟩
  driverFinalUrl := fun _ => ("https://api-duo.host/frame/prompt?sid=SID1").toList
  promptTxid := some (("TX1").toList)
  statusCookie := some (("AUTHSIG").toList)
  finalHistory :=
    [⟨[], [(kSetCookie, ("shib_idp_session=SHIB1; Path=/; HttpOnly").toList)]⟩,
     ⟨[], [(kSetCookie, ("JSESSIONID=IDJ1; Path=/; Secure").toList)]⟩]
  surveyHistory :=
    [⟨[], []⟩, ⟨[], [(kSetCookie, ("JSESSIONID=IDJ1; Path=/; Secure").toList)]⟩]
  printWindow := some [("1111111").toList, ("2222222").toList]

/-- The same oracle with the pending-survey shape: the completion response
redirect history has a single hop, so the extra proceed `GET` must be used;
the harvested values are identical. -/
def envOkSurvey : Env :=
  { envOk with finalHistory := [⟨[], [(kSetCookie, ("shib_idp_session=SHIB1; Path=/; HttpOnly").toList)]⟩] }

/-- A concrete starting state with three codes. -/
def sThree : AuthState where
  username := ('u' :: [])
  password := ('p' :: [])
  auth_cookies := none
  identity_jsession_id := none
  codes := [('A' :: 'A' :: []), ('B' :: 'B' :: []), ('C' :: 'C' :: [])]
  codesFile := ("AA\nBB\nCC").toList

/-- A valid passcode token: non-empty and free of whitespace characters. -/
def validCode (c : Str) : Prop :=
  c ≠ [] ∧ ∀ ch ∈ c, isSpaceChar ch = false

instance (c : Str) : Decidable (validCode c) := by
  unfold validCode; infer_instance

/-! ## Lemmas: the codes-file write/read round trip -/

lemma readlinesAux_no_nl (l : Str) (h : ∀ x ∈ l, x ≠ '\n') (acc : Str) :
    readlinesAux l acc =
      if acc.isEmpty && l.isEmpty then [] else [acc.reverse ++ l] := by
  induction l generalizing acc with
  | nil => simp [readlinesAux]
  | cons c l ih =>
    have hc : ¬(c = '\n') := h c (List.mem_cons_self _ _)
    rw [readlinesAux, if_neg hc, ih (fun x hx => h x (List.mem_cons_of_mem _ hx))]
    simp

lemma readlinesAux_append_nl (l : Str) (h : ∀ x ∈ l, x ≠ '\n') (rest acc : Str) :
    readlinesAux (l ++ '\n' :: rest) acc =
      (acc.reverse ++ l ++ ['\n']) :: readlinesAux rest [] := by
  induction l generalizing acc with
  | nil => simp [readlinesAux]
  | cons c l ih =>
    have hc : ¬(c = '\n') := h c (List.mem_cons_self _ _)
    rw [List.cons_append, readlinesAux, if_neg hc,
      ih (fun x hx => h x (List.mem_cons_of_mem _ hx))]
    simp

lemma dropWhile_eq_self_of_all {p : Char → Bool} {l : Str}
    (h : ∀ x ∈ l, p x = false) : l.dropWhile p = l := by
  cases l with
  | nil => rfl
  | cons c cs => simp [List.dropWhile_cons, h c (List.mem_cons_self _ _)]

lemma all_isSpace_false {c : Str} (hne : c ≠ [])
    (h : ∀ ch ∈ c, isSpaceChar ch = false) : c.all isSpaceChar = false := by
  cases c with
  | nil => exact absurd rfl hne
  | cons x xs => simp [List.all_cons, h x (List.mem_cons_self _ _)]

lemma mem_ne_nl {c : Str} (h : ∀ ch ∈ c, isSpaceChar ch = false) :
    ∀ x ∈ c, x ≠ '\n' := by
  intro x hx heq
  have := h x hx
  rw [heq] at this
  simp [isSpaceChar] at this

lemma pyIsSpace_false {c : Str} (hne : c ≠ [])
    (h : ∀ ch ∈ c, isSpaceChar ch = false) : pyIsSpace c = false := by
  simp [pyIsSpace, all_isSpace_false hne h]

lemma pyIsSpace_false_nl {c : Str} (hne : c ≠ [])
    (h : ∀ ch ∈ c, isSpaceChar ch = false) : pyIsSpace (c ++ ['\n']) = false := by
  cases c with
  | nil => exact absurd rfl hne
  | cons x xs =>
    simp [pyIsSpace, List.all_cons, h x (List.mem_cons_self _ _)]

lemma pyStrip_valid {c : Str} (h : ∀ ch ∈ c, isSpaceChar ch = false) :
    pyStrip c = c := by
  unfold pyStrip
  rw [dropWhile_eq_self_of_all h, dropWhile_eq_self_of_all
    (fun x hx => h x (List.mem_reverse.mp hx)), List.reverse_reverse]

lemma pyStrip_valid_nl {c : Str} (hne : c ≠ [])
    (h : ∀ ch ∈ c, isSpaceChar ch = false) : pyStrip (c ++ ['\n']) = c := by
  unfold pyStrip
  have h1 : (c ++ ['\n']).dropWhile isSpaceChar = c ++ ['\n'] := by
    cases c with
    | nil => exact absurd rfl hne
    | cons x xs => simp [List.dropWhile_cons, h x (List.mem_cons_self _ _)]
  rw [h1, List.reverse_append]
  have h2 : (['\n'].reverse ++ c.reverse).dropWhile isSpaceChar = c.reverse.dropWhile isSpaceChar := by
    simp [List.dropWhile_cons, isSpaceChar]
  rw [h2, dropWhile_eq_self_of_all (fun x hx => h x (List.mem_reverse.mp hx)),
    List.reverse_reverse]

/-- Writing the codes (newline-joined) and re-reading them (lines stripped,
whitespace-only lines skipped) round-trips for valid codes. -/
lemma readCodes_join (cs : List Str) (h : ∀ c ∈ cs, validCode c) :
    readCodes (pyJoin ['\n'] cs) = cs := by
  induction cs with
  | nil => rfl
  | cons c cs ih =>
    obtain ⟨hne, hsp⟩ := h c (List.mem_cons_self _ _)
    cases cs with
    | nil =>
      show readCodes c = [c]
      unfold readCodes pyReadlines
      rw [readlinesAux_no_nl c (mem_ne_nl hsp) []]
      have hE : c.isEmpty = false := by
        cases c with
        | nil => exact absurd rfl hne
        | cons x xs => rfl
      simp [hE, pyIsSpace_false hne hsp, pyStrip_valid hsp]
    | cons c2 cs2 =>
      have hjoin : pyJoin ['\n'] (c :: c2 :: cs2) = c ++ '\n' :: pyJoin ['\n'] (c2 :: cs2) := by
        rw [pyJoin]; simp
      unfold readCodes pyReadlines
      rw [hjoin, readlinesAux_append_nl c (mem_ne_nl hsp)]
      simp only [List.reverse_nil, List.nil_append, List.filterMap_cons]
      rw [pyIsSpace_false_nl hne hsp, pyStrip_valid_nl hne hsp]
      have ih' := ih (fun x hx => h x (List.mem_cons_of_mem _ hx))
      unfold readCodes pyReadlines at ih'
      rw [ih']
      rfl

/-! ## Lemmas: Python `split` behaviour -/

lemma pySplitChar_ne_nil (sep : Char) (l : Str) : pySplitChar sep l ≠ [] := by
  induction l with
  | nil => simp [pySplitChar]
  | cons c rest ih =>
    rw [pySplitChar]
    cases hm : pySplitChar sep rest with
    | nil => exact absurd hm ih
    | cons r rs =>
      dsimp only
      split <;> simp

lemma pySplitChar_head (sep : Char) (l : Str) :
    (pySplitChar sep l).get? 0 = some (l.takeWhile (fun c => !(c == sep))) := by
  induction l with
  | nil => rfl
  | cons c rest ih =>
    rw [pySplitChar]
    match hm : pySplitChar sep rest with
    | [] => exact absurd hm (pySplitChar_ne_nil sep rest)
    | r :: rs =>
      rw [hm] at ih
      by_cases hc : c = sep
      · simp [hc, List.takeWhile_cons]
      · simp only [if_neg hc, List.takeWhile_cons]
        simp only [List.get?_cons_zero] at ih ⊢
        simp [hc, Option.some_inj.mp ih]

lemma pySplitChar_append (sep : Char) (pre rest : Str) (h : sep ∉ pre) :
    pySplitChar sep (pre ++ sep :: rest) = pre :: pySplitChar sep rest := by
  induction pre with
  | nil =>
    rw [List.nil_append, pySplitChar]
    match hm : pySplitChar sep rest with
    | [] => exact absurd hm (pySplitChar_ne_nil sep rest)
    | r :: rs => simp
  | cons c pre' ih =>
    have hc : ¬(c = sep) := fun heq => h (heq ▸ List.mem_cons_self _ _)
    rw [List.cons_append, pySplitChar, ih (fun hx => h (List.mem_cons_of_mem _ hx))]
    simp [hc]

/-! ## Lemmas: `urllib.parse.quote(·, safe="")` -/

lemma char_toNat_lt (c : Char) : c.toNat < 1114112 := by
  rcases c.valid with h | h
  · exact lt_trans h (by norm_num)
  · exact h.2

lemma utf8Encode_lt (c : Char) : ∀ b ∈ utf8Encode c, b < 256 := by
  have h := char_toNat_lt c
  intro b hb
  unfold utf8Encode at hb
  split at hb
  · simp at hb; omega
  · split at hb
    · simp at hb; rcases hb with hb | hb <;> omega
    · split at hb
      · simp at hb; rcases hb with hb | hb | hb <;> omega
      · simp at hb; rcases hb with hb | hb | hb | hb <;> omega

set_option maxRecDepth 4096 in
lemma quoteByte_safe : ∀ b < 256, '/' ∉ quoteByte b ∧ ':' ∉ quoteByte b := by decide

/-! ## Lemmas: the negotiation's effect on the passcode list -/

lemma finishAuth_codes (s : AuthState) (env : Env) (j sh idj : Str) (ga : Bool)
    (tr : List NetStep) :
    (finishAuth s env j sh idj ga tr).state.codes = s.codes ∨
      ((finishAuth s env j sh idj ga tr).outcome = .ok () ∧ ga = true ∧
        ∃ cs, env.printWindow = some cs ∧
          (finishAuth s env j sh idj ga tr).state.codes = cs) := by
  unfold finishAuth generateBody
  cases ga with
  | false => left; rfl
  | true =>
    cases hpw : env.printWindow with
    | none => left; rfl
    | some divs => right; exact ⟨rfl, rfl, divs, rfl, rfl⟩

lemma finishAuth_trace (s : AuthState) (env : Env) (j sh idj : Str) (ga : Bool)
    (tr : List NetStep) :
    ∀ x ∈ (finishAuth s env j sh idj ga tr).trace, x ∈ tr ∨ x = .postMfaGenerate := by
  unfold finishAuth generateBody
  cases ga with
  | false => intro x hx; left; exact hx
  | true =>
    cases hpw : env.printWindow with
    | none =>
      intro x hx
      simp at hx
      tauto
    | some divs =>
      intro x hx
      simp at hx
      tauto

lemma finishAuth_outcome_error (s : AuthState) (env : Env) (j sh idj : Str) (ga : Bool)
    (tr : List NetStep) (e : AuthError) :
    (finishAuth s env j sh idj ga tr).outcome = .error e →
      (finishAuth s env j sh idj ga tr).state.codes = s.codes := by
  unfold finishAuth generateBody
  cases ga with
  | false => intro h; rfl
  | true =>
    cases hpw : env.printWindow with
    | none => intro h; rfl
    | some divs => intro h; exact absurd h (by simp)

/-- Every path through the negotiation steps leaves the (already popped)
code list untouched, except the replenishment tail on the last-code run; the
only passcode ever submitted is the popped one; and a missing second-factor
marker (with step 1 succeeding) yields the rejection error with the state
exactly as it was after the pop. -/
lemma authSteps_codes (s : AuthState) (env : Env) (code : Str) (ga : Bool) :
    (authSteps s env code ga).state.codes = s.codes ∨
      ((authSteps s env code ga).outcome = .ok () ∧ ga = true ∧
        ∃ cs, env.printWindow = some cs ∧ (authSteps s env code ga).state.codes = cs) := by
  unfold authSteps
  dsimp only
  repeat' split
  all_goals try exact Or.inl rfl
  all_goals exact finishAuth_codes _ _ _ _ _ _ _

lemma authSteps_prompt (s : AuthState) (env : Env) (code : Str) (ga : Bool) :
    ∀ sid pc, NetStep.postPrompt sid pc ∈ (authSteps s env code ga).trace → pc = code := by
  unfold authSteps
  dsimp only
  repeat' split
  all_goals intro sid pc h
  all_goals try rcases finishAuth_trace _ _ _ _ _ _ _ _ h with h | h
  all_goals try simp at h
  all_goals try tauto

lemma authSteps_marker (s : AuthState) (env : Env) (code : Str) (ga : Bool) :
    (∃ hop2, env.mfaHistory.get? 2 = some hop2 ∧
        ∃ j, pyDictGet hop2.cookies kJSESSIONID = some j) →
      hasSubstr marker env.loginText = false →
      (authSteps s env code ga).outcome = .error .authenticationRejected ∧
      (authSteps s env code ga).state = s := by
  unfold authSteps
  dsimp only
  repeat' split
  all_goals rintro ⟨hop2, hh, j, hj⟩ hm
  all_goals try exact ⟨rfl, rfl⟩
  all_goals simp_all
  all_goals rw [List.getElem?_eq_none (by omega)] at hh
  all_goals simp at hh

/-- Exact result of a run in which every step succeeds and the completion
response has a redirect history of length at least two (the normal harvest
branch), started with at least two codes in the store. -/
lemma auth_ok_normal
    (s : AuthState) (env : Env) (code c2 : Str) (crest : List Str)
    (hcodes : s.codes = code :: c2 :: crest)
    (hop2 : Hop) (h1 : env.mfaHistory.get? 2 = some hop2)
    (jsid : Str) (h2 : pyDictGet hop2.cookies kJSESSIONID = some jsid)
    (h3 : hasSubstr marker env.loginText = true)
    (dh : Option Str) (sigreq : Str) (h4 : env.duoIframe = some ⟨dh, some sigreq⟩)
    (appSig : Str) (h5 : (pySplitChar ':' sigreq).get? 1 = some appSig)
    (u : Str) (h6 : env.driverFinalUrl = fun _ => u)
    (sidRaw : Str) (h7 : (pySplitSub kSidMarker u).get? 1 = some sidRaw)
    (txid : Str) (h8 : env.promptTxid = some txid)
    (asig : Str) (h9 : env.statusCookie = some asig)
    (hop0 hop1 : Hop) (hrest : List Hop) (h10 : env.finalHistory = hop0 :: hop1 :: hrest)
    (hdr0 : Str) (h11 : pyDictGet hop0.headers kSetCookie = some hdr0)
    (v : Str) (h12 : extractAfter kShibMarker hdr0 = some v)
    (hdr1 : Str) (h13 : pyDictGet hop1.headers kSetCookie = some hdr1)
    (w : Str) (h14 : extractAfter kJsidMarker hdr1 = some w) :
    authenticate s env = ⟨.ok (),
      { s with codes := c2 :: crest,
               codesFile := pyJoin ['\n'] (c2 :: crest),
               auth_cookies := some [(kJSESSIONID, jsid), (kShibIdpSession, v)],
               identity_jsession_id := some w },
      [.getMfaprofile, .postLogin s.username s.password,
       .browserGet (("https://").toList ++ optStr dh ++ ("/frame/web/v1/auth?tx=").toList ++
         (pySplitChar ':' sigreq).headD [] ++ ("&parent=").toList ++ pyQuote env.loginUrl ++
         ("&v=2.6").toList),
       .postPrompt (pyUnquote sidRaw) code,
       .postStatus (pyUnquote sidRaw) txid, .postStatusTx (pyUnquote sidRaw) txid,
       .postShib env.loginUrl (asig ++ ':' :: appSig)]⟩ := by
  unfold authenticate authSteps
  simp only [hcodes, h1, h2, h3, h4, h5, h6, h7, h8, h9, h10, h11, h12, h13, h14,
    List.isEmpty_cons, List.get?_cons_succ, List.get?_cons_zero, Bool.false_eq_true,
    if_false, if_true]
  unfold finishAuth write_codes
  simp

/-- Exact result of a run in which every step succeeds and the completion
response has a redirect history of length one (the pending-survey harvest
branch, which issues the extra proceed `GET`), started with at least two
codes in the store. -/
lemma auth_ok_survey
    (s : AuthState) (env : Env) (code c2 : Str) (crest : List Str)
    (hcodes : s.codes = code :: c2 :: crest)
    (hop2 : Hop) (h1 : env.mfaHistory.get? 2 = some hop2)
    (jsid : Str) (h2 : pyDictGet hop2.cookies kJSESSIONID = some jsid)
    (h3 : hasSubstr marker env.loginText = true)
    (dh : Option Str) (sigreq : Str) (h4 : env.duoIframe = some ⟨dh, some sigreq⟩)
    (appSig : Str) (h5 : (pySplitChar ':' sigreq).get? 1 = some appSig)
    (u : Str) (h6 : env.driverFinalUrl = fun _ => u)
    (sidRaw : Str) (h7 : (pySplitSub kSidMarker u).get? 1 = some sidRaw)
    (txid : Str) (h8 : env.promptTxid = some txid)
    (asig : Str) (h9 : env.statusCookie = some asig)
    (hop0 : Hop) (h10 : env.finalHistory = [hop0])
    (hdr0 : Str) (h11 : pyDictGet hop0.headers kSetCookie = some hdr0)
    (v : Str) (h12 : extractAfter kShibMarker hdr0 = some v)
    (shop1 : Hop) (h13 : env.surveyHistory.get? 1 = some shop1)
    (hdr1 : Str) (h14 : pyDictGet shop1.headers kSetCookie = some hdr1)
    (w : Str) (h15 : extractAfter kJsidMarker hdr1 = some w) :
    authenticate s env = ⟨.ok (),
      { s with codes := c2 :: crest,
               codesFile := pyJoin ['\n'] (c2 :: crest),
               auth_cookies := some [(kJSESSIONID, jsid), (kShibIdpSession, v)],
               identity_jsession_id := some w },
      [.getMfaprofile, .postLogin s.username s.password,
       .browserGet (("https://").toList ++ optStr dh ++ ("/frame/web/v1/auth?tx=").toList ++
         (pySplitChar ':' sigreq).headD [] ++ ("&parent=").toList ++ pyQuote env.loginUrl ++
         ("&v=2.6").toList),
       .postPrompt (pyUnquote sidRaw) code,
       .postStatus (pyUnquote sidRaw) txid, .postStatusTx (pyUnquote sidRaw) txid,
       .postShib env.loginUrl (asig ++ ':' :: appSig),
       .getSurveyProceed (env.loginUrl.dropLast ++ kProceedSuffix)]⟩ := by
  unfold authenticate authSteps
  simp only [hcodes, h1, h2, h3, h4, h5, h6, h7, h8, h9, h10, h11, h12, h13, h14, h15,
    List.isEmpty_cons, List.isEmpty_nil, List.get?_cons_succ, List.get?_cons_zero,
    Bool.false_eq_true, if_false, if_true]
  unfold finishAuth write_codes
  simp

/-! ## Concrete fixtures for witnesses and counterexamples -/

/-- The successful oracle with the marker string absent from the step-2
response body. -/
def envNoMarker : Env :=
  { envOk with loginText := ("wrong page").toList }

/-- A state with no codes left. -/
def sEmpty : AuthState :=
  { sThree with codes := [], codesFile := [] }

/-- A one-entry stored cookie dict. -/
def dOne : List (Str × Str) :=
  [(kJSESSIONID, ('P' :: '1' :: []))]

/-- A state holding a cached cookie set and identity session id. -/
def sCookied : AuthState :=
  { sThree with auth_cookies := some dOne,
                identity_jsession_id := some ('Q' :: '1' :: []) }

/-! ## The claims -/

/-- C1: every run of `authenticate` on a non-empty store removes exactly the
head passcode from the in-memory list: on every failure the final list is
exactly the tail (the consumed code is not restored) — in particular when the
second-factor marker is missing the run fails with the rejection error and
the list is the tail; on success the list is the tail unless this was the
last code, in which case the tail (now empty) has been replaced by the
freshly generated codes; and the only passcode ever submitted to the prompt
endpoint is the popped head. -/
theorem passcode_consumed_exactly_once (s : AuthState) (env : Env) (code : Str)
    (rest : List Str) (hc : s.codes = code :: rest) :
    (∀ e, (authenticate s env).outcome = .error e →
      (authenticate s env).state.codes = rest) ∧
    ((authenticate s env).outcome = .ok () →
      (authenticate s env).state.codes = rest ∨
        ∃ cs, env.printWindow = some cs ∧ (authenticate s env).state.codes = cs) ∧
    (∀ sid pc, NetStep.postPrompt sid pc ∈ (authenticate s env).trace → pc = code) ∧
    ((∃ hop2, env.mfaHistory.get? 2 = some hop2 ∧
        ∃ j, pyDictGet hop2.cookies kJSESSIONID = some j) →
      hasSubstr marker env.loginText = false →
      (authenticate s env).outcome = .error .authenticationRejected ∧
      (authenticate s env).state.codes = rest) := by
  have hauth : authenticate s env =
      authSteps { s with codes := rest } env code rest.isEmpty := by
    unfold authenticate
    rw [hc]
  rw [hauth]
  have hcodes := authSteps_codes { s with codes := rest } env code rest.isEmpty
  have hprompt := authSteps_prompt { s with codes := rest } env code rest.isEmpty
  have hmarker := authSteps_marker { s with codes := rest } env code rest.isEmpty
  refine ⟨?_, ?_, hprompt, ?_⟩
  · intro e he
    rcases hcodes with h | ⟨hok, _⟩
    · exact h
    · rw [he] at hok
      cases hok
  · intro hok
    rcases hcodes with h | ⟨_, _, cs, hpw, h⟩
    · exact Or.inl h
    · exact Or.inr ⟨cs, hpw, h⟩
  · intro hex hm
    obtain ⟨ho, hs⟩ := hmarker hex hm
    refine ⟨ho, ?_⟩
    rw [hs]

/-- C1 witness: with the marker missing, the concrete three-code store ends
with exactly the tail of the original list. -/
theorem passcode_consumed_exactly_once_witness :
    (authenticate sThree envNoMarker).outcome = .error .authenticationRejected ∧
    (authenticate sThree envNoMarker).state.codes =
      [('B' :: 'B' :: []), ('C' :: 'C' :: [])] :=
  (passcode_consumed_exactly_once sThree envNoMarker ('A' :: 'A' :: [])
      [('B' :: 'B' :: []), ('C' :: 'C' :: [])] rfl).2.2.2
    ⟨⟨[(kJSESSIONID, ('J' :: '0' :: []))], []⟩, rfl, ('J' :: '0' :: []), by decide⟩
    (by decide)

/-- C2: with zero codes in the store, `authenticate` fails immediately with
the exhausted-credentials error, performs no network step, and leaves the
whole state (code list, persisted file, cached cookie set) unchanged. -/
theorem exhausted_store_fails_immediately (s : AuthState) (env : Env)
    (h : s.codes = []) :
    authenticate s env = ⟨.error .exhaustedCredentials, s, []⟩ := by
  unfold authenticate
  rw [h]

/-- C2 witness at a concrete empty store. -/
theorem exhausted_store_fails_immediately_witness :
    authenticate sEmpty envOk = ⟨.error .exhaustedCredentials, sEmpty, []⟩ :=
  exhausted_store_fails_immediately sEmpty envOk rfl

/-- C3 (amended): for every code list `[a,b,c]` of valid codes (non-empty,
no whitespace), `replenish` fully overwrites the store in memory and on disk
(independently of the previous contents); a following successful negotiation
consumes `a` (submits it to the prompt endpoint), leaves `[b,c]` in memory,
rewrites the file in full, and the persisted file reloads to exactly `[b,c]`;
and `generate_new_codes` (with a session available) realises exactly this
`replenish` on the scraped codes. -/
theorem replenish_then_consume (s : AuthState) (a b c : Str)
    (ha : validCode a) (hb : validCode b) (hc : validCode c) :
    (replenish s [a, b, c]).codes = [a, b, c] ∧
    (replenish s [a, b, c]).codesFile = pyJoin ['\n'] [a, b, c] ∧
    (authenticate (replenish s [a, b, c]) envOk).outcome = .ok () ∧
    (∃ sid, NetStep.postPrompt sid a ∈
      (authenticate (replenish s [a, b, c]) envOk).trace) ∧
    (authenticate (replenish s [a, b, c]) envOk).state.codes = [b, c] ∧
    (authenticate (replenish s [a, b, c]) envOk).state.codesFile =
      pyJoin ['\n'] [b, c] ∧
    readCodes (authenticate (replenish s [a, b, c]) envOk).state.codesFile = [b, c] ∧
    (∀ s' : AuthState, pyFalsy s'.auth_cookies = false →
      (generate_new_codes s' { envOk with printWindow := some [a, b, c] }).state =
        replenish s' [a, b, c]) := by
  have H := auth_ok_normal (replenish s [a, b, c]) envOk a b [c] rfl
    ⟨[(kJSESSIONID, ('J' :: '0' :: []))], []⟩ rfl
    ('J' :: '0' :: []) (by decide)
    (by decide)
    (some (("api-duo.host").toList)) (("DUOSIG:APPSIG").toList) rfl
    (("APPSIG").toList) (by decide)
    (("https://api-duo.host/frame/prompt?sid=SID1").toList) rfl
    (("SID1").toList) (by decide)
    (("TX1").toList) rfl
    (("AUTHSIG").toList) rfl
    ⟨[], [(kSetCookie, ("shib_idp_session=SHIB1; Path=/; HttpOnly").toList)]⟩
    ⟨[], [(kSetCookie, ("JSESSIONID=IDJ1; Path=/; Secure").toList)]⟩ [] rfl
    (("shib_idp_session=SHIB1; Path=/; HttpOnly").toList) (by decide)
    (("SHIB1").toList) (by decide)
    (("JSESSIONID=IDJ1; Path=/; Secure").toList) (by decide)
    (("IDJ1").toList) (by decide)
  refine ⟨rfl, rfl, ?_, ?_, ?_, ?_, ?_, ?_⟩
  · rw [H]
  · rw [H]
    exact ⟨pyUnquote (("SID1").toList), by simp⟩
  · rw [H]
  · rw [H]
  · rw [H]
    show readCodes (pyJoin ['\n'] [b, c]) = [b, c]
    refine readCodes_join [b, c] ?_
    intro x hx
    rcases List.mem_cons.mp hx with rfl | hx
    · exact hb
    · rcases List.mem_cons.mp hx with rfl | hx
      · exact hc
      · cases hx
  · intro s' h
    unfold generate_new_codes
    rw [h]
    simp [generateBody]

/-- C3 counterexample: with the empty string as the middle code, the claim
as stated fails — the negotiation still consumes the first code `"a"` and
succeeds, but the persisted file, reloaded, yields `["c"]`, not `["", "c"]`
(the blank line is skipped by the startup read). -/
theorem replenish_roundtrip_counterexample :
    (authenticate (replenish sThree [('a' :: []), [], ('c' :: [])]) envOk).outcome
      = .ok () ∧
    (∃ sid, NetStep.postPrompt sid ('a' :: []) ∈
      (authenticate (replenish sThree [('a' :: []), [], ('c' :: [])]) envOk).trace) ∧
    readCodes
        (authenticate (replenish sThree [('a' :: []), [], ('c' :: [])]) envOk).state.codesFile
      = [('c' :: [])] ∧
    [('c' :: [])] ≠ [([] : Str), ('c' :: [])] := by
  refine ⟨rfl, ⟨("SID1").toList, by decide⟩, by decide, by decide⟩

/-- C3 witness at concrete valid codes. -/
theorem replenish_then_consume_witness :
    readCodes
        (authenticate
            (replenish sThree [('A' :: '1' :: []), ('B' :: '2' :: []), ('C' :: '3' :: [])])
            envOk).state.codesFile
      = [('B' :: '2' :: []), ('C' :: '3' :: [])] :=
  (replenish_then_consume sThree ('A' :: '1' :: []) ('B' :: '2' :: []) ('C' :: '3' :: [])
    (by decide) (by decide) (by decide)).2.2.2.2.2.2.1

/-- C4: the percent-encoding used for the challenge-service URL
(`urllib.parse.quote` with `safe=""`) is full component-encoding: no `/` or
`:` ever survives into the output, every `/` becomes `%2F` and every `:`
becomes `%3A`, and in particular `https://x/y` encodes to
`https%3A%2F%2Fx%2Fy`. -/
theorem quote_is_full_component_encoding :
    (∀ s : Str, '/' ∉ pyQuote s ∧ ':' ∉ pyQuote s) ∧
    (∀ s t : Str, pyQuote (s ++ '/' :: t) =
      pyQuote s ++ ('%' :: '2' :: 'F' :: []) ++ pyQuote t) ∧
    (∀ s t : Str, pyQuote (s ++ ':' :: t) =
      pyQuote s ++ ('%' :: '3' :: 'A' :: []) ++ pyQuote t) ∧
    pyQuote (("https://x/y").toList) = ("https%3A%2F%2Fx%2Fy").toList := by
  have hslash : utf8Encode '/' = [47] := by decide
  have hcolon : utf8Encode ':' = [58] := by decide
  have hq47 : quoteByte 47 = '%' :: '2' :: 'F' :: [] := by decide
  have hq58 : quoteByte 58 = '%' :: '3' :: 'A' :: [] := by decide
  refine ⟨?_, ?_, ?_, by decide⟩
  · intro s
    refine ⟨fun hmem => ?_, fun hmem => ?_⟩
    · rw [pyQuote, List.mem_flatMap] at hmem
      obtain ⟨b, hb, hx⟩ := hmem
      rw [List.mem_flatMap] at hb
      obtain ⟨ch, hch, hbc⟩ := hb
      exact (quoteByte_safe b (utf8Encode_lt ch b hbc)).1 hx
    · rw [pyQuote, List.mem_flatMap] at hmem
      obtain ⟨b, hb, hx⟩ := hmem
      rw [List.mem_flatMap] at hb
      obtain ⟨ch, hch, hbc⟩ := hb
      exact (quoteByte_safe b (utf8Encode_lt ch b hbc)).2 hx
  · intro s t
    simp [pyQuote, List.flatMap_append, List.flatMap_cons, hslash, hq47]
  · intro s t
    simp [pyQuote, List.flatMap_append, List.flatMap_cons, hcolon, hq58]

/-- C5 (amended): the composite signature `duo_sig_request` is split on
every colon (`split(":")`), and the code reads fields `[0]` and `[1]`: the
challenge signature is the substring before the first colon, but the
application signature is only the segment between the first colon and the
next colon (or the end) — not the entire remainder. -/
theorem signature_split_amended (pre rest : Str) (h : ':' ∉ pre) :
    (pySplitChar ':' (pre ++ ':' :: rest)).get? 0 = some pre ∧
    (pySplitChar ':' (pre ++ ':' :: rest)).get? 1 =
      some (rest.takeWhile (fun c => !(c == ':'))) := by
  rw [pySplitChar_append ':' pre rest h]
  exact ⟨rfl, pySplitChar_head ':' rest⟩

/-- C5 witness at a concrete signature with a second colon. -/
theorem signature_split_amended_witness :
    (pySplitChar ':' (("AUTH:APP:X").toList)).get? 0 = some (("AUTH").toList) ∧
    (pySplitChar ':' (("AUTH:APP:X").toList)).get? 1 = some (("APP").toList) :=
  signature_split_amended (("AUTH").toList) (("APP:X").toList) (by decide)

/-- C5 counterexample: on `"A:B:C"` the code's field `[1]` is `"B"`, not the
entire remainder `"B:C"` after the first colon, refuting the claim as
stated. -/
theorem signature_split_counterexample :
    (pySplitChar ':' (("A:B:C").toList)).get? 1 = some ('B' :: []) ∧
    some ('B' :: []) ≠ some ('B' :: ':' :: 'C' :: []) := by
  exact ⟨by decide, by decide⟩

/-- C6: with a stored (non-empty) cookie set and a stored identity session
id `q`, `_new_session` triggers no negotiation and builds a jar holding
every stored cookie at default scope (domain `""`, path `"/"`) plus the
identity id pinned under the separate name `JSESSION` solely to
`identity.umd.edu`. -/
theorem session_factory_cookie_scopes (s : AuthState) (env : Env)
    (d : List (Str × Str)) (q : Str)
    (hd : s.auth_cookies = some d) (hdne : d ≠ [])
    (hq : s.identity_jsession_id = some q) :
    new_session s env = ⟨.ok (mkJar (some d) (some q)), s, []⟩ ∧
    (∀ kv ∈ d, (⟨kv.1, some kv.2, [], ['/']⟩ : Cookie) ∈ mkJar (some d) (some q)) ∧
    (⟨kJSESSION, some q, kIdentityDomain, ['/']⟩ : Cookie) ∈ mkJar (some d) (some q) ∧
    (∀ ck ∈ mkJar (some d) (some q),
      ck.domain = [] ∨ ck = ⟨kJSESSION, some q, kIdentityDomain, ['/']⟩) ∧
    kJSESSION ≠ kJSESSIONID := by
  obtain ⟨kv0, d', rfl⟩ : ∃ kv0 d', d = kv0 :: d' := by
    cases d with
    | nil => exact absurd rfl hdne
    | cons x y => exact ⟨x, y, rfl⟩
  refine ⟨?_, ?_, ?_, ?_, by decide⟩
  · unfold new_session
    rw [hd, hq]
    rfl
  · intro kv hkv
    simp only [mkJar, Option.getD_some, List.mem_append, List.mem_map]
    exact Or.inl ⟨kv, hkv, rfl⟩
  · simp [mkJar]
  · intro ck hck
    simp only [mkJar, Option.getD_some, List.mem_append, List.mem_map,
      List.mem_singleton] at hck
    rcases hck with ⟨kv, hkv, rfl⟩ | rfl
    · exact Or.inl rfl
    · exact Or.inr rfl

/-- C6 witness at a concrete one-cookie store. -/
theorem session_factory_cookie_scopes_witness :
    new_session sCookied envOk =
      ⟨.ok (mkJar (some dOne) (some ('Q' :: '1' :: []))), sCookied, []⟩ :=
  (session_factory_cookie_scopes sCookied envOk dOne ('Q' :: '1' :: [])
    rfl (by decide) rfl).1

/-- C7: under identical successful steps 1-6, the pending-survey branch
(redirect history of length 1, which issues the extra proceed `GET`) and the
normal branch (length ≥ 2) terminate in the same state: both succeed, both
produce the cookie set consisting of exactly the session-tracking cookie and
the identity-provider session cookie with the same values, and both store
the same identity-domain session id; only the survey branch performs the
proceed `GET`. -/
theorem harvest_branch_equivalence
    (s : AuthState) (env1 env2 : Env) (code c2 : Str) (crest : List Str)
    (hcodes : s.codes = code :: c2 :: crest)
    (hop2 : Hop) (h1 : env1.mfaHistory.get? 2 = some hop2)
    (jsid : Str) (h2 : pyDictGet hop2.cookies kJSESSIONID = some jsid)
    (h3 : hasSubstr marker env1.loginText = true)
    (dh : Option Str) (sigreq : Str) (h4 : env1.duoIframe = some ⟨dh, some sigreq⟩)
    (appSig : Str) (h5 : (pySplitChar ':' sigreq).get? 1 = some appSig)
    (u : Str) (h6 : env1.driverFinalUrl = fun _ => u)
    (sidRaw : Str) (h7 : (pySplitSub kSidMarker u).get? 1 = some sidRaw)
    (txid : Str) (h8 : env1.promptTxid = some txid)
    (asig : Str) (h9 : env1.statusCookie = some asig)
    (hop0 : Hop) (h10 : env1.finalHistory = [hop0])
    (hdr0 : Str) (h11 : pyDictGet hop0.headers kSetCookie = some hdr0)
    (v : Str) (h12 : extractAfter kShibMarker hdr0 = some v)
    (shop1 : Hop) (h13 : env1.surveyHistory.get? 1 = some shop1)
    (hdr1 : Str) (h14 : pyDictGet shop1.headers kSetCookie = some hdr1)
    (w : Str) (h15 : extractAfter kJsidMarker hdr1 = some w)
    (hop0' hop1' : Hop) (hrest' : List Hop)
    (h16 : env2 = { env1 with finalHistory := hop0' :: hop1' :: hrest' })
    (hdr0' : Str) (h17 : pyDictGet hop0'.headers kSetCookie = some hdr0')
    (h18 : extractAfter kShibMarker hdr0' = some v)
    (hdr1' : Str) (h19 : pyDictGet hop1'.headers kSetCookie = some hdr1')
    (h20 : extractAfter kJsidMarker hdr1' = some w) :
    (authenticate s env1).outcome = .ok () ∧
    (authenticate s env2).outcome = .ok () ∧
    (authenticate s env1).state = (authenticate s env2).state ∧
    (authenticate s env1).state.auth_cookies =
      some [(kJSESSIONID, jsid), (kShibIdpSession, v)] ∧
    (authenticate s env1).state.identity_jsession_id = some w ∧
    (∃ pu, NetStep.getSurveyProceed pu ∈ (authenticate s env1).trace) ∧
    (∀ pu, NetStep.getSurveyProceed pu ∉ (authenticate s env2).trace) := by
  have H1 := auth_ok_survey s env1 code c2 crest hcodes hop2 h1 jsid h2 h3 dh sigreq h4
    appSig h5 u h6 sidRaw h7 txid h8 asig h9 hop0 h10 hdr0 h11 v h12 shop1 h13 hdr1 h14 w h15
  have H2 := auth_ok_normal s env2 code c2 crest hcodes hop2
    (by rw [h16]; exact h1) jsid h2 (by rw [h16]; exact h3) dh sigreq
    (by rw [h16]; exact h4) appSig h5 u (by rw [h16]; exact h6) sidRaw h7 txid
    (by rw [h16]; exact h8) asig (by rw [h16]; exact h9) hop0' hop1' hrest'
    (by rw [h16]) hdr0' h17 v h18 hdr1' h19 w h20
  rw [H1, H2]
  refine ⟨rfl, rfl, ?_, rfl, rfl, ?_, ?_⟩
  · rw [h16]
  · exact ⟨env1.loginUrl.dropLast ++ kProceedSuffix, by simp⟩
  · intro pu
    simp

/-- C7 witness: the two concrete oracles differing only in harvest shape
give identical final states. -/
theorem harvest_branch_equivalence_witness :
    (authenticate sThree envOkSurvey).state = (authenticate sThree envOk).state :=
  (harvest_branch_equivalence sThree envOkSurvey envOk
    ('A' :: 'A' :: []) ('B' :: 'B' :: []) [('C' :: 'C' :: [])] rfl
    ⟨[(kJSESSIONID, ('J' :: '0' :: []))], []⟩ rfl
    ('J' :: '0' :: []) (by decide)
    (by decide)
    (some (("api-duo.host").toList)) (("DUOSIG:APPSIG").toList) rfl
    (("APPSIG").toList) (by decide)
    (("https://api-duo.host/frame/prompt?sid=SID1").toList) rfl
    (("SID1").toList) (by decide)
    (("TX1").toList) rfl
    (("AUTHSIG").toList) rfl
    ⟨[], [(kSetCookie, ("shib_idp_session=SHIB1; Path=/; HttpOnly").toList)]⟩ rfl
    (("shib_idp_session=SHIB1; Path=/; HttpOnly").toList) (by decide)
    (("SHIB1").toList) (by decide)
    ⟨[], [(kSetCookie, ("JSESSIONID=IDJ1; Path=/; Secure").toList)]⟩ rfl
    (("JSESSIONID=IDJ1; Path=/; Secure").toList) (by decide)
    (("IDJ1").toList) (by decide)
    ⟨[], [(kSetCookie, ("shib_idp_session=SHIB1; Path=/; HttpOnly").toList)]⟩
    ⟨[], [(kSetCookie, ("JSESSIONID=IDJ1; Path=/; Secure").toList)]⟩ [] rfl
    (("shib_idp_session=SHIB1; Path=/; HttpOnly").toList) (by decide)
    (by decide)
    (("JSESSIONID=IDJ1; Path=/; Secure").toList) (by decide)
    (by decide)).2.2.1

/-- C8: the dining-dollars record derives its total on construction as the
sum of the current and rollover amounts (the `total_amount` field is
`init=False` and is not supplied by the caller), and in particular
`12.50 + 3.00` gives `15.50`. -/
theorem dining_dollars_total :
    (∀ c r : ℚ, (mkDiningDollars c r).total_amount = c + r) ∧
    (mkDiningDollars 12.50 3.00).current_amount = 12.50 ∧
    (mkDiningDollars 12.50 3.00).rollover_amount = 3.00 ∧
    (mkDiningDollars 12.50 3.00).total_amount = 15.50 := by
  refine ⟨fun c r => rfl, rfl, rfl, ?_⟩
  show (12.50 : ℚ) + 3.00 = 15.50
  norm_num

/-- C9: the session factory treats an empty stored cookie mapping exactly
like an absent one — both are falsy, and in that case `_new_session` first
runs the full negotiation (same requests, same resulting state) and builds
the jar from the negotiation's freshly stored cookies; with a non-empty
stored mapping the stored set is reused, no request is made and the state is
untouched. -/
theorem session_factory_empty_as_absent (s : AuthState) (env : Env) :
    pyFalsy none = true ∧ pyFalsy (some []) = true ∧
    (pyFalsy s.auth_cookies = true →
      (new_session s env).state = (authenticate s env).state ∧
      (new_session s env).trace = (authenticate s env).trace ∧
      (new_session s env).outcome = (authenticate s env).outcome.map (fun _ =>
        mkJar (authenticate s env).state.auth_cookies
          (authenticate s env).state.identity_jsession_id)) ∧
    (∀ kv d, new_session { s with auth_cookies := some (kv :: d) } env =
      ⟨.ok (mkJar (some (kv :: d)) s.identity_jsession_id),
        { s with auth_cookies := some (kv :: d) }, []⟩) := by
  refine ⟨rfl, rfl, ?_, ?_⟩
  · intro h
    unfold new_session
    rw [h]
    cases ho : (authenticate s env).outcome with
    | error e =>
      refine ⟨?_, ?_, ?_⟩ <;> simp [ho, Except.map]
    | ok u =>
      cases u
      refine ⟨?_, ?_, ?_⟩ <;> simp [ho, Except.map]
  · intro kv d
    unfold new_session
    rfl

/-- C9 witness: with no cookie set stored, the factory's state and trace are
the negotiation's. -/
theorem session_factory_empty_as_absent_witness :
    (new_session sThree envOk).state = (authenticate sThree envOk).state :=
  ((session_factory_empty_as_absent sThree envOk).2.2.1 (by decide)).1

/-- C10: persisting any list of valid codes (non-empty, whitespace-free) via
`_write_codes` and re-reading the file with the startup read yields exactly
the original list. -/
theorem codes_file_roundtrip (s : AuthState) (cs : List Str)
    (h : ∀ c ∈ cs, validCode c) :
    readCodes (write_codes { s with codes := cs }).codesFile = cs := by
  show readCodes (pyJoin ['\n'] cs) = cs
  exact readCodes_join cs h

/-- C10 witness at a concrete code list. -/
theorem codes_file_roundtrip_witness :
    readCodes (write_codes
        { sThree with codes := [('X' :: '1' :: []), ('Y' :: '2' :: [])] }).codesFile =
      [('X' :: '1' :: []), ('Y' :: '2' :: [])] :=
  codes_file_roundtrip sThree [('X' :: '1' :: []), ('Y' :: '2' :: [])] (by decide)

end UmdAuth
